import Mathlib

/-!
Shallow embedding of the Keypr firmware core (src/keypr-firmware.ino, first
firmware variant, lines 1-1849).  Arduino `String` values are modelled as
`List Char`; `millis()` values and other `unsigned long` quantities are
modelled as `Nat`, with 32-bit wrap-around (`% 2^32`) applied exactly where
the C code performs unsigned arithmetic.  Display and serial I/O have no
observable state and are dropped (functions that only draw are modelled as
the identity, keeping the call structure).  The NVS `Preferences` namespace
"keypr" is modelled by the `Store` structure, holding exactly the keys the
firmware reads and writes.
-/

namespace Keypr

/-- 2^32, the modulus of `unsigned long` arithmetic on the ESP32-C3. -/
def U32 : Nat := 4294967296

/-- Unsigned 32-bit subtraction `a - b` as the C code computes it. -/
def usub (a b : Nat) : Nat := (a + U32 - b % U32) % U32

/-- The C cast `(unsigned long)minutes` applied to an `int`. -/
def toU32 (i : Int) : Nat := (i % (U32 : Int)).toNat

/-- Arduino `String::trim()` on the character list. -/
def trimChars (l : List Char) : List Char :=
  ((l.dropWhile Char.isWhitespace).reverse.dropWhile Char.isWhitespace).reverse

/-- Digit-accumulating core of `atol`: consume leading decimal digits. -/
def parseDigits : List Char → Nat → Nat
  | [], acc => acc
  | c :: cs, acc => if c.isDigit then parseDigits cs (10 * acc + (c.toNat - 48)) else acc

/-- Arduino `String::toInt()` (`atol`) on an already-trimmed string:
optional sign followed by leading decimal digits, `0` when no digits. -/
def toIntChars (l : List Char) : Int :=
  match l with
  | [] => 0
  | c :: cs =>
    if c = '-' then - (parseDigits cs 0 : Int)
    else if c = '+' then (parseDigits cs 0 : Int)
    else (parseDigits l 0 : Int)

/-- `enum BoxState` of the firmware. -/
inductive BoxState where
  | ready
  | opened
  | locked
  | unlocking
  | verifying
  | offlineCountdown
  | lowBattery
deriving DecidableEq, Repr

/-- The NVS namespace "keypr": exactly the keys the firmware touches
(`wifi_ssid`, `wifi_pass`, `device_key`, `tamper`). -/
structure Store where
  wifiSsid : List Char
  wifiPass : List Char
  deviceKey : List Char
  tamper : Bool
deriving DecidableEq, Repr

/-- The firmware's mutable globals that the core state machine reads or
writes, plus the servo position (the physical actuator output) and the
durable `Store`. -/
structure Device where
  currentState : BoxState
  lockEndTime : Nat
  lidClosed : Bool
  batteryPercent : Nat
  lidOpenedDuringUnlock : Bool
  pendingLockMinutes : Int
  wifiSSID : List Char
  wifiPassword : List Char
  deviceKey : List Char
  wifiConfigured : Bool
  wifiConnected : Bool
  tamperAlert : Bool
  tamperAlertDisplayed : Bool
  emergencyPresses : List Nat
  emergencyPressIndex : Nat
  displayText : List Char
  lastEvent : List Char
  lastButtonPress : Nat
  servoPos : Nat
  store : Store
deriving DecidableEq, Repr

/-- Initial values of the globals at the top of the source file. -/
def initialDevice (st : Store) : Device where
  currentState := .ready
  lockEndTime := 0
  lidClosed := true
  batteryPercent := 100
  lidOpenedDuringUnlock := false
  pendingLockMinutes := 0
  wifiSSID := []
  wifiPassword := []
  deviceKey := []
  wifiConfigured := false
  wifiConnected := false
  tamperAlert := false
  tamperAlertDisplayed := false
  emergencyPresses := [0, 0, 0, 0, 0]
  emergencyPressIndex := 0
  displayText := "Keypr".data
  lastEvent := []
  lastButtonPress := 0
  servoPos := 0
  store := st

/-- `setLastEvent`: `strncpy(lastEvent, event, 31)` then a BLE notify. -/
def setLastEvent (d : Device) (event : List Char) : Device :=
  { d with lastEvent := event.take 31 }

/-- `setServoPosition`: drive the servo and record its position. -/
def setServoPosition (d : Device) (angle : Nat) : Device :=
  { d with servoPos := angle }

/-- `saveTamperState`: `preferences.putBool("tamper", tamperAlert)`. -/
def saveTamperState (d : Device) : Device :=
  { d with store := { d.store with tamper := d.tamperAlert } }

/-- `showTamperAlert`: draws the alert, then marks it displayed. -/
def showTamperAlert (d : Device) : Device :=
  if d.tamperAlertDisplayed then d else { d with tamperAlertDisplayed := true }

/-- `showCannotUnlockMessage`: display-only, no state change. -/
def showCannotUnlockMessage (d : Device) : Device := d

/-- `lockBox(int minutes)`. -/
def lockBox (d : Device) (minutes : Int) (now : Nat) : Device :=
  if d.currentState = .lowBattery then d
  else if d.lidClosed = false then
    { d with pendingLockMinutes := minutes }
  else
    let d := { d with pendingLockMinutes := 0 }
    let d := { d with lockEndTime := (now + toU32 minutes * 60 * 1000) % U32 }
    let d := setServoPosition d 90
    let d := { d with currentState := .locked }
    setLastEvent d "locked".data

/-- `unlockBox()`. -/
def unlockBox (d : Device) : Device :=
  let d := setServoPosition d 90
  let d := { d with lockEndTime := 0 }
  let d := { d with currentState := .ready }
  setLastEvent d "unlocked".data

/-- `startUnlockCycle()`. -/
def startUnlockCycle (d : Device) : Device :=
  let d := setServoPosition d 0
  let d := { d with lidOpenedDuringUnlock := false }
  let d := { d with currentState := .unlocking }
  setLastEvent d "button_press_accepted".data

/-- `completeUnlockCycle()`. -/
def completeUnlockCycle (d : Device) : Device :=
  let d := setServoPosition d 90
  let d := { d with currentState := .ready }
  { d with lidOpenedDuringUnlock := false }

/-- `checkTamper()`. -/
def checkTamper (d : Device) : Device :=
  if d.currentState = .locked ∧ d.lidClosed = false ∧ d.tamperAlert = false then
    let d := { d with tamperAlert := true, tamperAlertDisplayed := false }
    let d := saveTamperState d
    showTamperAlert d
  else d

/-- `clearTamperAlert()`. -/
def clearTamperAlert (d : Device) : Device :=
  if d.tamperAlert = false then d
  else
    let d := { d with tamperAlert := false, tamperAlertDisplayed := false }
    saveTamperState d

/-- `triggerEmergencyUnlock()`. -/
def triggerEmergencyUnlock (d : Device) : Device :=
  let d := { d with emergencyPresses := [0, 0, 0, 0, 0], emergencyPressIndex := 0 }
  let d := setServoPosition d 0
  let d := { d with currentState := .unlocking }
  let d := { d with lockEndTime := 0 }
  setLastEvent d "emergency_unlock".data

/-- `recordButtonPress()`. -/
def recordButtonPress (d : Device) (now : Nat) : Device :=
  { d with
    emergencyPresses := d.emergencyPresses.set d.emergencyPressIndex now
    emergencyPressIndex := (d.emergencyPressIndex + 1) % 5 }

/-- `checkEmergencyUnlock()`: the slot at `emergencyPressIndex` is the
oldest of the last five presses. -/
def checkEmergencyUnlock (d : Device) (now : Nat) : Device :=
  let oldestPress := d.emergencyPresses.getD d.emergencyPressIndex 0
  if 0 < oldestPress ∧ usub now oldestPress < 3000 then
    triggerEmergencyUnlock d
  else d

/-- `checkButton()`: one poll of the button pin. -/
def checkButton (d : Device) (pressed : Bool) (now : Nat) : Device :=
  if pressed = false then d
  else if usub now d.lastButtonPress < 200 then d
  else
    let d := { d with lastButtonPress := now }
    let d := recordButtonPress d now
    let d := checkEmergencyUnlock d now
    if d.currentState = .ready then startUnlockCycle d
    else if d.currentState = .locked then
      if now ≥ d.lockEndTime then startUnlockCycle d
      else showCannotUnlockMessage (setLastEvent d "button_press_denied".data)
    else d

/-- `checkLidState()`: one poll of the reed switch. -/
def checkLidState (d : Device) (sensorClosed : Bool) (now : Nat) : Device :=
  if sensorClosed ≠ d.lidClosed then
    let d := { d with lidClosed := sensorClosed }
    let d := checkTamper d
    if d.currentState = .unlocking ∧ sensorClosed = false then
      setLastEvent { d with currentState := .opened } "lid_opened".data
    else if d.currentState = .opened ∧ sensorClosed = true then
      completeUnlockCycle (setLastEvent d "lid_closed".data)
    else if sensorClosed = true ∧ 0 < d.pendingLockMinutes then
      lockBox { d with pendingLockMinutes := 0 } d.pendingLockMinutes now
    else d
  else { d with lidClosed := sensorClosed }

/-- `checkBattery()`: reading is stubbed to 100. -/
def checkBattery (d : Device) : Device :=
  let d := { d with batteryPercent := 100 }
  if d.batteryPercent < 10 ∧ d.currentState = .ready then
    { d with currentState := .lowBattery }
  else d

/-- The lock-expiry check at the top of `loop()`. -/
def tickExpiry (d : Device) (now : Nat) : Device :=
  if d.currentState = .locked ∧ now ≥ d.lockEndTime then
    if d.wifiConfigured = false ∨ d.deviceKey.length = 0 then unlockBox d else d
  else d

/-- `LockCommandCallback::onWrite`. -/
def handleLockCommand (d : Device) (value : String) (now : Nat) : Device :=
  if value.data.length = 0 then d
  else
    let cmd := trimChars value.data
    if "LOCK:".data.isPrefixOf cmd then
      let minutes := toIntChars (trimChars (cmd.drop 5))
      if 0 < minutes ∧ minutes ≤ 525600 then lockBox d minutes now else d
    else if cmd = "UNLOCK".data then
      if d.currentState = .locked ∧ now ≥ d.lockEndTime then unlockBox d
      else if d.currentState = .ready then d
      else if d.currentState = .locked then
        showCannotUnlockMessage (setLastEvent d "button_press_denied".data)
      else d
    else if cmd = "FORCE_UNLOCK".data then triggerEmergencyUnlock d
    else if cmd = "STATUS".data then d
    else if cmd = "SYNC".data then d
    else if cmd = "CLEAR_TAMPER".data then clearTamperAlert d
    else d

/-- `DisplayTextCallback::onWrite`. -/
def handleDisplayText (d : Device) (value : String) : Device :=
  if 0 < value.data.length ∧ value.data.length ≤ 64 then
    { d with displayText := value.data.take 64 }
  else d

/-- `saveWiFiCredentials()`. -/
def saveWiFiCredentials (d : Device) : Device :=
  { d with store := { d.store with wifiSsid := d.wifiSSID, wifiPass := d.wifiPassword } }

/-- `WiFiConfigCallback::onWrite`; `connOk` stands for the outcome of
`connectWiFi()`, which depends only on the radio environment. -/
def handleWiFiConfig (d : Device) (value : String) (connOk : Bool) : Device :=
  if value.data.length = 0 then d
  else if "WIFI:".data.isPrefixOf value.data then
    let params := value.data.drop 5
    match params.findIdx? (· = ':') with
    | some colonIdx =>
      if 0 < colonIdx then
        let d := { d with
          wifiSSID := (params.take colonIdx).take 64
          wifiPassword := (params.drop (colonIdx + 1)).take 64 }
        let d := saveWiFiCredentials d
        let d := { d with wifiConfigured := true }
        { d with wifiConnected := connOk }
      else d
    | none => d
  else d

/-- `saveDeviceKey()`. -/
def saveDeviceKey (d : Device) : Device :=
  { d with store := { d.store with deviceKey := d.deviceKey } }

/-- `DeviceKeyCallback::onWrite`. -/
def handleDeviceKey (d : Device) (value : String) : Device :=
  if value.data.length = 0 then d
  else if "KEY:".data.isPrefixOf value.data then
    saveDeviceKey { d with deviceKey := (value.data.drop 4).take 127 }
  else d

/-- `loadSettings()` at boot, starting from the globals' initial values. -/
def loadSettings (st : Store) : Device :=
  let d := initialDevice st
  let d :=
    if 0 < st.wifiSsid.length then
      { d with
        wifiSSID := st.wifiSsid.take 64
        wifiPassword := st.wifiPass.take 64
        wifiConfigured := true }
    else d
  let d :=
    if 0 < st.deviceKey.length then { d with deviceKey := st.deviceKey.take 127 } else d
  { d with tamperAlert := st.tamper }

/-- The rest of `setup()` after `loadSettings`: the servo is driven to
`SERVO_UNLOCKED` and the initial lid state is read from the reed switch. -/
def bootDevice (st : Store) (sensorClosed : Bool) : Device :=
  { loadSettings st with servoPos := 0, lidClosed := sensorClosed }

/-- Every externally triggered entry point into the modelled core. -/
inductive Op where
  | lockCmd (value : String) (now : Nat)
  | displayTextWrite (value : String)
  | wifiConfig (value : String) (connOk : Bool)
  | keyWrite (value : String)
  | buttonPoll (pressed : Bool) (now : Nat)
  | lidPoll (sensorClosed : Bool) (now : Nat)
  | expiryTick (now : Nat)
  | batteryTick

/-- Dispatch one entry point. -/
def applyOp (op : Op) (d : Device) : Device :=
  match op with
  | .lockCmd value now => handleLockCommand d value now
  | .displayTextWrite value => handleDisplayText d value
  | .wifiConfig value connOk => handleWiFiConfig d value connOk
  | .keyWrite value => handleDeviceKey d value
  | .buttonPoll pressed now => checkButton d pressed now
  | .lidPoll sensorClosed now => checkLidState d sensorClosed now
  | .expiryTick now => tickExpiry d now
  | .batteryTick => checkBattery d

/-- An op is an explicit clear-tamper command. -/
def clearsTamper (op : Op) : Prop :=
  match op with
  | .lockCmd value _ => value.data ≠ [] ∧ trimChars value.data = "CLEAR_TAMPER".data
  | _ => False

instance : DecidablePred clearsTamper := by
  intro op
  unfold clearsTamper
  cases op <;> infer_instance

end Keypr

namespace Keypr

/-- An empty store: the NVS state of a fresh device. -/
def emptyStore : Store := { wifiSsid := [], wifiPass := [], deviceKey := [], tamper := false }

/-- A fresh device straight out of the globals' initial values. -/
def freshDevice : Device := initialDevice emptyStore

/-- A fresh device that has been locked for a while. -/
def lockedDevice : Device :=
  { freshDevice with currentState := .locked, lockEndTime := 600000 }

/-- A locked, expired device with an API configured (WiFi credentials and
device key present): the loop's expiry check refuses to auto-unlock it. -/
def lockedApiDevice : Device :=
  { freshDevice with
    currentState := .locked, lockEndTime := 100,
    wifiConfigured := true, deviceKey := "k".data }

/-- A device sitting in the `OPEN` state (unlock cycle, lid open). -/
def openLidDevice : Device :=
  { freshDevice with currentState := .opened, lidClosed := false }

/-- A locked device with the lid open, latch still clear. -/
def tamperBaseDevice : Device :=
  { freshDevice with
      currentState := .locked, lidClosed := false, lockEndTime := 600000 }

/-- A locked device with the lid open and the tamper latch already set. -/
def tamperedDevice : Device := checkTamper tamperBaseDevice

/-- OTA controller states (spec §3, `OtaSession`). -/
inductive OtaState where
  | idle
  | receiving
  | verifying
  | applying
  | error
deriving DecidableEq, Repr

/-- OTA error taxonomy (spec §4.3, stable codes). -/
inductive OtaErrorCode where
  | insufficientSpace
  | writeFailure
  | checksumMismatch
  | incompleteImage
  | batteryTooLow
  | deviceLocked
  | chunkTimeout
deriving DecidableEq, Repr

/-- `OtaSession` (spec §3). -/
structure OtaSession where
  state : OtaState
  totalSize : Nat
  bytesReceived : Nat
  expectedCrc32 : Nat
  runningCrc32 : Nat
  errorCode : Option OtaErrorCode
deriving DecidableEq, Repr

/-- Modelled from the spec: the firmware-update controller is part of this
repository's richest firmware variant but its source is not under src/
(only the spec describes it).  Spec §4.3: `start(total_size,
expected_crc32, resume_offset)` is "rejected (→ `Error`, no state change
otherwise) if currently `Locked` (a physical lock must not be disturbed
mid-update-risk), if battery is below a minimum threshold, or if the
inactive storage region cannot hold `total_size`.  On success, opens a
write cursor at `resume_offset`, resets the running checksum, and enters
`Receiving`."  Writes to the inactive region happen only in `Receiving`
(§3 invariant), so `start` itself writes nothing; the second component of
the result is the list of bytes the operation writes to the inactive
region. -/
def otaStart (s : OtaSession) (deviceState : BoxState)
    (batteryPercent minBattery capacity : Nat)
    (totalSize expectedCrc32 resumeOffset : Nat) : OtaSession × List Nat :=
  if deviceState = .locked then
    ({ s with state := .error, errorCode := some .deviceLocked }, [])
  else if batteryPercent < minBattery then
    ({ s with state := .error, errorCode := some .batteryTooLow }, [])
  else if capacity < totalSize then
    ({ s with state := .error, errorCode := some .insufficientSpace }, [])
  else
    ({ state := .receiving, totalSize := totalSize, bytesReceived := resumeOffset,
       expectedCrc32 := expectedCrc32, runningCrc32 := 0, errorCode := none }, [])

/-- An idle OTA session for the C8 witness. -/
def idleOta : OtaSession :=
  { state := .idle, totalSize := 0, bytesReceived := 0, expectedCrc32 := 0,
    runningCrc32 := 0, errorCode := none }

/-- Event kinds of the buffered event log (spec §3, `BufferedEvent.kind`). -/
inductive EventKind where
  | buttonDenied
  | buttonAccepted
  | lidOpened
  | lidClosed
  | lockedKind
  | unlockedKind
  | emergencyUnlockKind
  | tamperDetected
  | batteryWarning
  | timerExpired
  | offlineFallbackStarted
  | offlineFallbackUnlocked
deriving DecidableEq, Repr

/-- `BufferedEvent` (spec §3). -/
structure BufferedEvent where
  seq : Nat
  kind : EventKind
  timestamp : Nat
  needsCorrection : Bool
  persisted : Bool
  details : Nat
deriving DecidableEq, Repr

/-- Modelled from the spec: the event log is part of this repository's
richest firmware variant but its source is not under src/ (only the spec
describes it).  Spec §4.2: "`acknowledge(up_to_seq)`: removes the
contiguous prefix with `seq <= up_to_seq` from memory"; the in-memory
buffer is kept ordered by `seq` (§3 invariant). -/
def acknowledge (buf : List BufferedEvent) (upToSeq : Nat) : List BufferedEvent :=
  buf.filter (fun e => upToSeq < e.seq)

/-- Modelled from the spec: the durable critical-event slots (capacity 10,
`Option` per slot); `acknowledge` also removes the acknowledged entries
"from durable critical storage" (spec §4.2). -/
def acknowledgeCritical (slots : List (Option BufferedEvent)) (upToSeq : Nat) :
    List (Option BufferedEvent) :=
  slots.map (fun s =>
    match s with
    | some e => if e.seq ≤ upToSeq then none else some e
    | none => none)

/-- Two sample events for the C9 witness. -/
def sampleEventA : BufferedEvent :=
  { seq := 3, kind := .tamperDetected, timestamp := 11, needsCorrection := true,
    persisted := true, details := 0 }

/-- Second sample event, newer sequence number. -/
def sampleEventB : BufferedEvent :=
  { seq := 7, kind := .emergencyUnlockKind, timestamp := 25, needsCorrection := false,
    persisted := true, details := 1 }

end Keypr

namespace Keypr

theorem lockBox_store (d : Device) (m : Int) (now : Nat) :
    (lockBox d m now).store = d.store := by
  unfold lockBox
  split
  · rfl
  · split <;> rfl

theorem handleLockCommand_force_unlock (d : Device) (now : Nat) :
    handleLockCommand d "FORCE_UNLOCK" now = triggerEmergencyUnlock d := rfl

theorem handleLockCommand_unlock (d : Device) (now : Nat) :
    handleLockCommand d "UNLOCK" now =
      (if d.currentState = .locked ∧ now ≥ d.lockEndTime then unlockBox d
       else if d.currentState = .ready then d
       else if d.currentState = .locked then
         showCannotUnlockMessage (setLastEvent d "button_press_denied".data)
       else d) := rfl

theorem handleLockCommand_clear_tamper (d : Device) (now : Nat) :
    handleLockCommand d "CLEAR_TAMPER" now = clearTamperAlert d := rfl

theorem handleLockCommand_lock_zero (d : Device) (now : Nat) :
    handleLockCommand d "LOCK:0" now = d := rfl

end Keypr

namespace Keypr

/-- C1 counterexample: sending `FORCE_UNLOCK` to a locked device leaves it
in the `UNLOCKING` state (awaiting a lid open/close cycle), not in `READY`
as the claim states. -/
theorem c1_force_unlock_not_ready_counterexample :
    (handleLockCommand lockedDevice "FORCE_UNLOCK" 1000).currentState = BoxState.unlocking ∧
    BoxState.unlocking ≠ BoxState.ready := by
  decide

/-- C1 (amended): emergency unlock — the `FORCE_UNLOCK` command as well as
the physical trigger — always succeeds from any state: it releases the
servo, resets the lock-end deadline to 0, clears the press history, emits
an `emergency_unlock` event, leaves the persistent store untouched (there
is no persisted lock record), and leaves the device in the `UNLOCKING`
state. -/
theorem c1_emergency_unlock_amended (d : Device) (now : Nat) :
    (triggerEmergencyUnlock d).currentState = BoxState.unlocking ∧
    (triggerEmergencyUnlock d).lockEndTime = 0 ∧
    (triggerEmergencyUnlock d).servoPos = 0 ∧
    (triggerEmergencyUnlock d).emergencyPresses = [0, 0, 0, 0, 0] ∧
    (triggerEmergencyUnlock d).emergencyPressIndex = 0 ∧
    (triggerEmergencyUnlock d).lastEvent = "emergency_unlock".data ∧
    (triggerEmergencyUnlock d).store = d.store ∧
    handleLockCommand d "FORCE_UNLOCK" now = triggerEmergencyUnlock d := by
  exact ⟨rfl, rfl, rfl, rfl, rfl, rfl, rfl, rfl⟩

/-- C2 counterexample: `lockBox` moves a fresh device into `LOCKED` while
leaving the persistent store byte-for-byte unchanged, and a reboot from
that store comes up `READY` with no deadline — no durable lock record is
ever written. -/
theorem c2_lock_no_persistence_counterexample :
    (lockBox freshDevice 5 1000).currentState = BoxState.locked ∧
    (lockBox freshDevice 5 1000).store = freshDevice.store ∧
    (bootDevice (lockBox freshDevice 5 1000).store true).currentState = BoxState.ready ∧
    (bootDevice (lockBox freshDevice 5 1000).store true).lockEndTime = 0 := by
  decide

/-- C2 (amended): no transition of the lock state machine touches the
persistent store — `lockBox` and `unlockBox` leave it unchanged (the store
holds only WiFi credentials, the device key and the tamper latch) — and
after a power loss the device always boots into `READY` with a zero
deadline, whatever the store contains. -/
theorem c2_lock_transitions_unpersisted_amended
    (d : Device) (m : Int) (now : Nat) (st : Store) (b : Bool) :
    (lockBox d m now).store = d.store ∧
    (unlockBox d).store = d.store ∧
    (bootDevice st b).currentState = BoxState.ready ∧
    (bootDevice st b).lockEndTime = 0 := by
  refine ⟨lockBox_store d m now, rfl, ?_, ?_⟩ <;>
    · unfold bootDevice loadSettings initialDevice
      split <;> split <;> rfl

/-- C5 counterexample: `unlockBox` on a locked device with a custom
keyholder message drives the servo to the secured position 90 (not the
released position 0) and leaves the display text untouched (it is not
reset to the default `Keypr`). -/
theorem c5_unlock_box_counterexample :
    (unlockBox { lockedDevice with displayText := "see you soon".data }).servoPos = 90 ∧
    (unlockBox { lockedDevice with displayText := "see you soon".data }).servoPos ≠ 0 ∧
    (unlockBox { lockedDevice with displayText := "see you soon".data }).displayText =
      "see you soon".data ∧
    (unlockBox { lockedDevice with displayText := "see you soon".data }).displayText ≠
      "Keypr".data := by
  decide

/-- C5 (amended): `unlockBox` drives the servo to the secured position 90
(the latch stays engaged until a later button press), resets the lock-end
deadline to 0, transitions to `READY` and emits an `unlocked` event; it
leaves the display text, the persistent store and the tamper latch
unchanged.  The `UNLOCK` command calls it exactly when the device is
`LOCKED` with its deadline passed. -/
theorem c5_unlock_box_amended (d : Device) (now : Nat) :
    (unlockBox d).servoPos = 90 ∧
    (unlockBox d).lockEndTime = 0 ∧
    (unlockBox d).currentState = BoxState.ready ∧
    (unlockBox d).lastEvent = "unlocked".data ∧
    (unlockBox d).displayText = d.displayText ∧
    (unlockBox d).store = d.store ∧
    (unlockBox d).tamperAlert = d.tamperAlert ∧
    (d.currentState = BoxState.locked → now ≥ d.lockEndTime →
      handleLockCommand d "UNLOCK" now = unlockBox d) := by
  refine ⟨rfl, rfl, rfl, rfl, rfl, rfl, rfl, fun h1 h2 => ?_⟩
  rw [handleLockCommand_unlock, if_pos ⟨h1, h2⟩]

/-- C5 witness: the amended theorem applied to a concrete locked, expired
device. -/
theorem c5_unlock_box_witness :
    handleLockCommand lockedDevice "UNLOCK" 700000 = unlockBox lockedDevice :=
  (c5_unlock_box_amended lockedDevice 700000).2.2.2.2.2.2.2 (by decide) (by decide)

end Keypr

namespace Keypr

/-- C4 counterexample: `LOCK:0` is rejected outright — the device is left
completely unchanged, still `READY`; no indefinite lock session exists in
this firmware. -/
theorem c4_lock_zero_rejected_counterexample :
    handleLockCommand freshDevice "LOCK:0" 1000 = freshDevice ∧
    freshDevice.currentState = BoxState.ready ∧
    freshDevice.currentState ≠ BoxState.locked := by
  decide

/-- C4 (amended): the lock command accepts only minutes in 1..525600.
`LOCK:0` is rejected with no state change (there is no indefinite mode);
a `LOCK:` command whose minutes parse inside the range is handed to
`lockBox`, which — lid closed, battery fine — starts a timed lock ending
at `now + minutes*60000` (mod 2^32); minutes outside the range leave the
device unchanged. -/
theorem c4_lock_command_range_amended (d : Device) (value : String) (now : Nat) :
    (handleLockCommand d "LOCK:0" now = d) ∧
    (∀ m : Int,
      value.data ≠ [] →
      "LOCK:".data.isPrefixOf (trimChars value.data) = true →
      toIntChars (trimChars ((trimChars value.data).drop 5)) = m →
      0 < m → m ≤ 525600 →
      handleLockCommand d value now = lockBox d m now) ∧
    (∀ m : Int,
      "LOCK:".data.isPrefixOf (trimChars value.data) = true →
      toIntChars (trimChars ((trimChars value.data).drop 5)) = m →
      ¬(0 < m ∧ m ≤ 525600) →
      handleLockCommand d value now = d) ∧
    (∀ m : Int, d.lidClosed = true → d.currentState ≠ BoxState.lowBattery →
      (lockBox d m now).currentState = BoxState.locked ∧
      (lockBox d m now).lockEndTime = (now + toU32 m * 60 * 1000) % U32 ∧
      (lockBox d m now).pendingLockMinutes = 0) := by
  refine ⟨rfl, ?_, ?_, ?_⟩
  · intro m hne hpre hparse h1 h2
    unfold handleLockCommand
    rw [if_neg (fun h => hne (List.length_eq_zero.mp h)), if_pos hpre,
      hparse, if_pos ⟨h1, h2⟩]
  · intro m hpre hparse hrange
    by_cases hne : value.data = []
    · unfold handleLockCommand
      rw [if_pos (by simp [hne])]
    · unfold handleLockCommand
      rw [if_neg (fun h => hne (List.length_eq_zero.mp h)), if_pos hpre,
        hparse, if_neg hrange]
  · intro m hlid hbat
    unfold lockBox
    rw [if_neg hbat, if_neg (by simp [hlid])]
    exact ⟨rfl, rfl, rfl⟩

/-- C4 witness: the amended theorem at the concrete command `LOCK:42`. -/
theorem c4_lock_command_range_witness :
    handleLockCommand freshDevice "LOCK:42" 1000 = lockBox freshDevice 42 1000 ∧
    (lockBox freshDevice 42 1000).currentState = BoxState.locked ∧
    (lockBox freshDevice 42 1000).lockEndTime = (1000 + toU32 42 * 60 * 1000) % U32 ∧
    (lockBox freshDevice 42 1000).pendingLockMinutes = 0 := by
  refine ⟨?_, ?_⟩
  · exact (c4_lock_command_range_amended freshDevice "LOCK:42" 1000).2.1 42
      (by decide) (by decide) (by decide) (by decide) (by decide)
  · exact (c4_lock_command_range_amended freshDevice "LOCK:42" 1000).2.2.2 42
      (by decide) (by decide)

end Keypr

namespace Keypr


/-- C3 counterexample: a locked device whose deadline has passed is NOT
unlocked by the periodic tick when an API is configured (`wifiConfigured`
and a non-empty device key) — the tick leaves it `LOCKED`, unchanged. -/
theorem c3_tick_api_no_unlock_counterexample :
    lockedApiDevice.currentState = BoxState.locked ∧
    200 ≥ lockedApiDevice.lockEndTime ∧
    tickExpiry lockedApiDevice 200 = lockedApiDevice := by
  decide

/-- C3 (amended): for a `LOCKED` device whose deadline has passed, the
loop's expiry check unlocks only when no API is configured (WiFi not
configured, or empty device key) and is the identity otherwise; and the
tick is not the only enforcement point — the `UNLOCK` command unlocks an
expired device, and a debounced button press on an expired device starts
the unlock cycle. -/
theorem c3_timer_enforcement_amended (d : Device) (now : Nat)
    (hL : d.currentState = BoxState.locked) (hE : now ≥ d.lockEndTime) :
    ((d.wifiConfigured = false ∨ d.deviceKey.length = 0) →
      (tickExpiry d now).currentState = BoxState.ready ∧
      (tickExpiry d now).lastEvent = "unlocked".data) ∧
    (d.wifiConfigured = true → d.deviceKey.length ≠ 0 → tickExpiry d now = d) ∧
    (handleLockCommand d "UNLOCK" now = unlockBox d) ∧
    (d.emergencyPresses = [0, 0, 0, 0, 0] → d.emergencyPressIndex = 0 →
      ¬ usub now d.lastButtonPress < 200 →
      (checkButton d true now).currentState = BoxState.unlocking ∧
      (checkButton d true now).lastEvent = "button_press_accepted".data) := by
  refine ⟨?_, ?_, ?_, ?_⟩
  · intro hapi
    unfold tickExpiry
    rw [if_pos ⟨hL, hE⟩, if_pos hapi]
    exact ⟨rfl, rfl⟩
  · intro hw hk
    unfold tickExpiry
    rw [if_pos ⟨hL, hE⟩, if_neg (by simp [hw, hk])]
  · rw [handleLockCommand_unlock, if_pos ⟨hL, hE⟩]
  · intro harr hidx hdb
    unfold checkButton
    rw [if_neg (by simp), if_neg hdb]
    simp only [recordButtonPress, checkEmergencyUnlock, harr, hidx]
    norm_num [List.set, List.getD, hL, hE]
    exact ⟨rfl, rfl⟩

/-- C3 witness: the amended theorem at concrete devices: with an API
configured the tick keeps the expired device locked; without one it
unlocks; the `UNLOCK` command and the button both unlock it. -/
theorem c3_timer_enforcement_witness :
    (tickExpiry lockedApiDevice 200 = lockedApiDevice) ∧
    ((tickExpiry lockedDevice 700000).currentState = BoxState.ready ∧
      (tickExpiry lockedDevice 700000).lastEvent = "unlocked".data) ∧
    (handleLockCommand lockedDevice "UNLOCK" 700000 = unlockBox lockedDevice) ∧
    ((checkButton lockedDevice true 700000).currentState = BoxState.unlocking ∧
      (checkButton lockedDevice true 700000).lastEvent = "button_press_accepted".data) := by
  refine ⟨?_, ?_, ?_, ?_⟩
  · exact (c3_timer_enforcement_amended lockedApiDevice 200 (by decide) (by decide)).2.1
      (by decide) (by decide)
  · exact (c3_timer_enforcement_amended lockedDevice 700000 (by decide) (by decide)).1
      (by decide)
  · exact (c3_timer_enforcement_amended lockedDevice 700000 (by decide) (by decide)).2.2.1
  · exact (c3_timer_enforcement_amended lockedDevice 700000 (by decide) (by decide)).2.2.2
      (by decide) (by decide) (by decide)

end Keypr

namespace Keypr


/-- C7 counterexample: a lock request made while the device is in the
`OPEN` state (lid open) is stored as pending; but when the lid then
closes, `checkLidState` consumes the close to finish the unlock cycle
(`OPEN` → `READY`) and returns without applying the pending request — the
device ends `READY` (not `LOCKED`) with the request still pending. -/
theorem c7_pending_lock_open_state_counterexample :
    (lockBox openLidDevice 5 1000).pendingLockMinutes = 5 ∧
    (lockBox openLidDevice 5 1000).currentState = BoxState.opened ∧
    (checkLidState (lockBox openLidDevice 5 1000) true 2000).currentState = BoxState.ready ∧
    (checkLidState (lockBox openLidDevice 5 1000) true 2000).pendingLockMinutes = 5 ∧
    (checkLidState (lockBox openLidDevice 5 1000) true 2000).currentState ≠ BoxState.locked := by
  decide

/-- C7 (amended): a lock request with the lid open never changes the lock
state — outside `LOW_BATTERY` it is stored as the pending minutes, with
deadline, servo and store untouched; and a lid-close event applies the
pending request exactly once with the originally requested minutes
(ending `LOCKED`, pending cleared, deadline `now + minutes*60000` mod
2^32) — except when the close lands in the `OPEN` state, where it
completes the unlock cycle instead and the request stays pending. -/
theorem c7_pending_lock_amended (d : Device) (m : Int) (now : Nat) :
    (d.lidClosed = false → d.currentState ≠ BoxState.lowBattery →
      (lockBox d m now).currentState = d.currentState ∧
      (lockBox d m now).pendingLockMinutes = m ∧
      (lockBox d m now).lockEndTime = d.lockEndTime ∧
      (lockBox d m now).servoPos = d.servoPos ∧
      (lockBox d m now).store = d.store) ∧
    (d.lidClosed = false → d.currentState = BoxState.lowBattery →
      lockBox d m now = d) ∧
    (d.lidClosed = false → d.pendingLockMinutes = m → 0 < m →
      d.currentState ≠ BoxState.opened → d.currentState ≠ BoxState.lowBattery →
      (checkLidState d true now).currentState = BoxState.locked ∧
      (checkLidState d true now).pendingLockMinutes = 0 ∧
      (checkLidState d true now).lockEndTime = (now + toU32 m * 60 * 1000) % U32) := by
  refine ⟨?_, ?_, ?_⟩
  · intro hlid hbat
    unfold lockBox
    rw [if_neg hbat, if_pos (by simp [hlid])]
    exact ⟨rfl, rfl, rfl, rfl, rfl⟩
  · intro hlid hbat
    unfold lockBox
    rw [if_pos hbat]
  · intro hlid hpend hm hopen hbat
    simp only [checkLidState, checkTamper, hlid, hpend]
    norm_num [hopen, hbat, hm]
    simp only [lockBox, setServoPosition, setLastEvent]
    norm_num [hbat]

/-- C7 witness: a lock request queued with the lid open in `READY` is
applied exactly once, with the requested 7 minutes, when the lid closes. -/
theorem c7_pending_lock_witness :
    ((lockBox { freshDevice with lidClosed := false } 7 500).currentState =
      { freshDevice with lidClosed := false }.currentState ∧
     (lockBox { freshDevice with lidClosed := false } 7 500).pendingLockMinutes = 7 ∧
     (lockBox { freshDevice with lidClosed := false } 7 500).lockEndTime =
      { freshDevice with lidClosed := false }.lockEndTime ∧
     (lockBox { freshDevice with lidClosed := false } 7 500).servoPos =
      { freshDevice with lidClosed := false }.servoPos ∧
     (lockBox { freshDevice with lidClosed := false } 7 500).store =
      { freshDevice with lidClosed := false }.store) ∧
    ((checkLidState (lockBox { freshDevice with lidClosed := false } 7 500) true 2000).currentState =
      BoxState.locked ∧
     (checkLidState (lockBox { freshDevice with lidClosed := false } 7 500) true 2000).pendingLockMinutes = 0 ∧
     (checkLidState (lockBox { freshDevice with lidClosed := false } 7 500) true 2000).lockEndTime =
      (2000 + toU32 7 * 60 * 1000) % U32) := by
  refine ⟨?_, ?_⟩
  · exact (c7_pending_lock_amended { freshDevice with lidClosed := false } 7 500).1
      (by decide) (by decide)
  · exact (c7_pending_lock_amended (lockBox { freshDevice with lidClosed := false } 7 500) 7 2000).2.2
      (by decide) (by decide) (by decide) (by decide) (by decide)

end Keypr

namespace Keypr

@[simp] theorem setLastEvent_tamperAlert (d : Device) (e : List Char) :
    (setLastEvent d e).tamperAlert = d.tamperAlert := rfl

@[simp] theorem setServoPosition_tamperAlert (d : Device) (a : Nat) :
    (setServoPosition d a).tamperAlert = d.tamperAlert := rfl

@[simp] theorem saveTamperState_tamperAlert (d : Device) :
    (saveTamperState d).tamperAlert = d.tamperAlert := rfl

@[simp] theorem showTamperAlert_tamperAlert (d : Device) :
    (showTamperAlert d).tamperAlert = d.tamperAlert := by
  unfold showTamperAlert
  split <;> rfl

@[simp] theorem lockBox_tamperAlert (d : Device) (m : Int) (now : Nat) :
    (lockBox d m now).tamperAlert = d.tamperAlert := by
  unfold lockBox
  split
  · rfl
  · split <;> rfl

@[simp] theorem unlockBox_tamperAlert (d : Device) :
    (unlockBox d).tamperAlert = d.tamperAlert := rfl

@[simp] theorem startUnlockCycle_tamperAlert (d : Device) :
    (startUnlockCycle d).tamperAlert = d.tamperAlert := rfl

@[simp] theorem completeUnlockCycle_tamperAlert (d : Device) :
    (completeUnlockCycle d).tamperAlert = d.tamperAlert := rfl

@[simp] theorem triggerEmergencyUnlock_tamperAlert (d : Device) :
    (triggerEmergencyUnlock d).tamperAlert = d.tamperAlert := rfl

@[simp] theorem recordButtonPress_tamperAlert (d : Device) (now : Nat) :
    (recordButtonPress d now).tamperAlert = d.tamperAlert := rfl

@[simp] theorem checkEmergencyUnlock_tamperAlert (d : Device) (now : Nat) :
    (checkEmergencyUnlock d now).tamperAlert = d.tamperAlert := by
  simp only [checkEmergencyUnlock]
  split <;> rfl

@[simp] theorem checkButton_tamperAlert (d : Device) (p : Bool) (now : Nat) :
    (checkButton d p now).tamperAlert = d.tamperAlert := by
  simp only [checkButton]
  split
  · rfl
  · split
    · rfl
    · split
      · simp
      · split
        · split <;> simp [showCannotUnlockMessage]
        · simp

@[simp] theorem tickExpiry_tamperAlert (d : Device) (now : Nat) :
    (tickExpiry d now).tamperAlert = d.tamperAlert := by
  unfold tickExpiry
  split
  · split <;> simp
  · rfl

@[simp] theorem checkBattery_tamperAlert (d : Device) :
    (checkBattery d).tamperAlert = d.tamperAlert := by
  simp only [checkBattery]
  split <;> rfl

@[simp] theorem handleDisplayText_tamperAlert (d : Device) (v : String) :
    (handleDisplayText d v).tamperAlert = d.tamperAlert := by
  unfold handleDisplayText
  split <;> rfl

@[simp] theorem handleWiFiConfig_tamperAlert (d : Device) (v : String) (c : Bool) :
    (handleWiFiConfig d v c).tamperAlert = d.tamperAlert := by
  simp only [handleWiFiConfig]
  split
  · rfl
  · split
    · split
      · split <;> rfl
      · rfl
    · rfl

@[simp] theorem handleDeviceKey_tamperAlert (d : Device) (v : String) :
    (handleDeviceKey d v).tamperAlert = d.tamperAlert := by
  unfold handleDeviceKey
  split
  · rfl
  · split <;> rfl

theorem checkTamper_of_alert (d : Device) (h : d.tamperAlert = true) :
    checkTamper d = d := by
  unfold checkTamper
  rw [if_neg (by simp [h])]

theorem checkLidState_tamperAlert (d : Device) (b : Bool) (now : Nat)
    (h : d.tamperAlert = true) :
    (checkLidState d b now).tamperAlert = true := by
  simp only [checkLidState]
  split
  · rw [checkTamper_of_alert _ (by simpa using h)]
    split
    · simp [h]
    · split
      · simp [h]
      · split
        · simp [h]
        · simp [h]
  · simpa using h

theorem handleLockCommand_tamperAlert (d : Device) (value : String) (now : Nat)
    (h : d.tamperAlert = true)
    (hclear : ¬(value.data ≠ [] ∧ trimChars value.data = "CLEAR_TAMPER".data)) :
    (handleLockCommand d value now).tamperAlert = true := by
  simp only [handleLockCommand]
  split
  next hlen => exact h
  next hlen =>
    split
    · split <;> simp [h]
    · split
      · split
        · simp [h]
        · split
          · exact h
          · split <;> simp [showCannotUnlockMessage, h]
      · split
        · simp [h]
        · split
          · exact h
          · split
            · exact h
            · split
              next hcmd =>
                exact absurd ⟨fun he => hlen (by simp [he]), hcmd⟩ hclear
              next => exact h

end Keypr

namespace Keypr

/-- C6: the tamper latch.  (1) When the tamper condition (`LOCKED` and lid
open) holds with the latch clear, `checkTamper` sets the latch and durably
records it; (2) while the latch is set, re-triggering the condition is a
complete no-op (`checkTamper` is the identity — detected at most once);
(3) no modelled entry point other than an explicit `CLEAR_TAMPER` command
ever clears the latch; (4) in particular unlocking never clears it;
(5) the explicit clear command clears both the latch and its durable
mirror. -/
theorem c6_tamper_latch (d : Device) (op : Op) :
    (d.currentState = BoxState.locked → d.lidClosed = false → d.tamperAlert = false →
      (checkTamper d).tamperAlert = true ∧ (checkTamper d).store.tamper = true) ∧
    (d.tamperAlert = true → checkTamper d = d) ∧
    (d.tamperAlert = true → ¬ clearsTamper op → (applyOp op d).tamperAlert = true) ∧
    (d.tamperAlert = true → (unlockBox d).tamperAlert = true) ∧
    (d.tamperAlert = true →
      (clearTamperAlert d).tamperAlert = false ∧ (clearTamperAlert d).store.tamper = false) := by
  refine ⟨?_, ?_, ?_, ?_, ?_⟩
  · intro h1 h2 h3
    unfold checkTamper
    rw [if_pos ⟨h1, h2, h3⟩]
    exact ⟨by simp [saveTamperState, showTamperAlert], by simp [saveTamperState, showTamperAlert]⟩
  · exact checkTamper_of_alert d
  · intro h hclear
    cases op with
    | lockCmd value now =>
      simpa [applyOp] using
        handleLockCommand_tamperAlert d value now h (by simpa [clearsTamper] using hclear)
    | displayTextWrite value => simpa [applyOp] using h
    | wifiConfig value connOk => simpa [applyOp] using h
    | keyWrite value => simpa [applyOp] using h
    | buttonPoll pressed now => simpa [applyOp] using h
    | lidPoll sensorClosed now =>
      simpa [applyOp] using checkLidState_tamperAlert d sensorClosed now h
    | expiryTick now => simpa [applyOp] using h
    | batteryTick => simpa [applyOp] using h
  · intro h
    simpa using h
  · intro h
    unfold clearTamperAlert
    rw [if_neg (by simp [h])]
    exact ⟨rfl, rfl⟩


/-- C6 witness: the latch is set and durably recorded once; re-checking is
the identity; an `UNLOCK` command (a non-clearing op) and `unlockBox`
preserve the latch; `CLEAR_TAMPER` clears latch and store. -/
theorem c6_tamper_latch_witness :
    ((checkTamper tamperBaseDevice).tamperAlert = true ∧
     (checkTamper tamperBaseDevice).store.tamper = true) ∧
    (checkTamper tamperedDevice = tamperedDevice) ∧
    ((applyOp (Op.lockCmd "UNLOCK" 700000) tamperedDevice).tamperAlert = true) ∧
    ((unlockBox tamperedDevice).tamperAlert = true) ∧
    ((clearTamperAlert tamperedDevice).tamperAlert = false ∧
     (clearTamperAlert tamperedDevice).store.tamper = false) := by
  refine ⟨?_, ?_, ?_, ?_, ?_⟩
  · exact (c6_tamper_latch tamperBaseDevice (Op.lockCmd "UNLOCK" 700000)).1
      (by decide) (by decide) (by decide)
  · exact (c6_tamper_latch tamperedDevice (Op.lockCmd "UNLOCK" 700000)).2.1 (by decide)
  · exact (c6_tamper_latch tamperedDevice (Op.lockCmd "UNLOCK" 700000)).2.2.1 (by decide)
      (by decide)
  · exact (c6_tamper_latch tamperedDevice (Op.lockCmd "UNLOCK" 700000)).2.2.2.1 (by decide)
  · exact (c6_tamper_latch tamperedDevice (Op.lockCmd "UNLOCK" 700000)).2.2.2.2 (by decide)

end Keypr

namespace Keypr

theorem checkButton_press_step (d : Device) (t : Nat)
    (hdb : ¬ usub t d.lastButtonPress < 200)
    (hno : (d.emergencyPresses.set d.emergencyPressIndex t).getD
      ((d.emergencyPressIndex + 1) % 5) 0 = 0) :
    (checkButton d true t).emergencyPresses = d.emergencyPresses.set d.emergencyPressIndex t ∧
    (checkButton d true t).emergencyPressIndex = (d.emergencyPressIndex + 1) % 5 ∧
    (checkButton d true t).lastButtonPress = t ∧
    ((checkButton d true t).lastEvent = d.lastEvent ∨
     (checkButton d true t).lastEvent = "button_press_accepted".data ∨
     (checkButton d true t).lastEvent = "button_press_denied".data) := by
  simp only [checkButton, recordButtonPress, checkEmergencyUnlock]
  rw [if_neg (by simp), if_neg hdb]
  simp only [hno, lt_self_iff_false, false_and, if_false]
  split
  · simp [startUnlockCycle, setServoPosition, setLastEvent]
  · split
    · split
      · simp [startUnlockCycle, setServoPosition, setLastEvent]
      · simp [showCannotUnlockMessage, setLastEvent]
    · simp

theorem checkButton_press_trigger (d : Device) (t : Nat)
    (hdb : ¬ usub t d.lastButtonPress < 200)
    (hpos : 0 < (d.emergencyPresses.set d.emergencyPressIndex t).getD
      ((d.emergencyPressIndex + 1) % 5) 0)
    (hwin : usub t ((d.emergencyPresses.set d.emergencyPressIndex t).getD
      ((d.emergencyPressIndex + 1) % 5) 0) < 3000) :
    (checkButton d true t).currentState = BoxState.unlocking ∧
    (checkButton d true t).lastEvent = "emergency_unlock".data ∧
    (checkButton d true t).servoPos = 0 ∧
    (checkButton d true t).lockEndTime = 0 ∧
    (checkButton d true t).emergencyPresses = [0, 0, 0, 0, 0] ∧
    (checkButton d true t).emergencyPressIndex = 0 := by
  simp only [checkButton, recordButtonPress, checkEmergencyUnlock,
    List.getD_eq_getElem?_getD]
  simp only [List.getD_eq_getElem?_getD] at hpos hwin
  rw [if_neg (by simp), if_neg hdb]
  split
  next => simp [triggerEmergencyUnlock, setServoPosition, setLastEvent]
  next hcond => exact absurd ⟨hpos, hwin⟩ hcond

end Keypr

namespace Keypr

theorem usub_not_lt (a b c : Nat) (hle : b + c ≤ a) (hlt : a < b + 4294967296) :
    ¬ usub a b < c := by
  unfold usub U32
  omega

theorem usub_lt (a b c : Nat) (hle : b ≤ a) (hlt : a < b + c) (hc : c ≤ 4294967296) :
    usub a b < c := by
  unfold usub U32
  omega

/-- C10: starting from a fresh press history, five debounced button
presses all lying inside a 3000 ms window trigger the emergency unlock at
the fifth press — final state `UNLOCKING`, servo released, deadline and
press history reset, `emergency_unlock` event — whatever the lock state
and remaining time; and the first four presses alone never trigger it. -/
theorem c10_five_press_emergency (d : Device) (t1 t2 t3 t4 t5 : Nat)
    (harr : d.emergencyPresses = [0, 0, 0, 0, 0])
    (hidx : d.emergencyPressIndex = 0)
    (h1 : d.lastButtonPress + 200 ≤ t1)
    (hb : t1 < d.lastButtonPress + 4294967296)
    (h2 : t1 + 200 ≤ t2) (h3 : t2 + 200 ≤ t3) (h4 : t3 + 200 ≤ t4) (h5 : t4 + 200 ≤ t5)
    (hw : t5 < t1 + 3000) :
    ((checkButton (checkButton (checkButton (checkButton (checkButton d true t1) true t2)
        true t3) true t4) true t5).currentState = BoxState.unlocking ∧
     (checkButton (checkButton (checkButton (checkButton (checkButton d true t1) true t2)
        true t3) true t4) true t5).lastEvent = "emergency_unlock".data ∧
     (checkButton (checkButton (checkButton (checkButton (checkButton d true t1) true t2)
        true t3) true t4) true t5).servoPos = 0 ∧
     (checkButton (checkButton (checkButton (checkButton (checkButton d true t1) true t2)
        true t3) true t4) true t5).lockEndTime = 0 ∧
     (checkButton (checkButton (checkButton (checkButton (checkButton d true t1) true t2)
        true t3) true t4) true t5).emergencyPresses = [0, 0, 0, 0, 0] ∧
     (checkButton (checkButton (checkButton (checkButton (checkButton d true t1) true t2)
        true t3) true t4) true t5).emergencyPressIndex = 0) ∧
    (d.lastEvent ≠ "emergency_unlock".data →
     (checkButton (checkButton (checkButton (checkButton d true t1) true t2) true t3)
        true t4).lastEvent ≠ "emergency_unlock".data) := by
  obtain ⟨e1, i1, l1, v1⟩ := checkButton_press_step d t1
    (usub_not_lt t1 d.lastButtonPress 200 h1 hb)
    (by rw [harr, hidx]; rfl)
  have e1' : (checkButton d true t1).emergencyPresses = [t1, 0, 0, 0, 0] := by
    rw [e1, harr, hidx]; rfl
  have i1' : (checkButton d true t1).emergencyPressIndex = 1 := by rw [i1, hidx]
  obtain ⟨e2, i2, l2, v2⟩ := checkButton_press_step (checkButton d true t1) t2
    (by rw [l1]; exact usub_not_lt t2 t1 200 h2 (by omega))
    (by rw [e1', i1']; rfl)
  have e2' : (checkButton (checkButton d true t1) true t2).emergencyPresses =
      [t1, t2, 0, 0, 0] := by rw [e2, e1', i1']; rfl
  have i2' : (checkButton (checkButton d true t1) true t2).emergencyPressIndex = 2 := by
    rw [i2, i1']
  obtain ⟨e3, i3, l3, v3⟩ :=
    checkButton_press_step (checkButton (checkButton d true t1) true t2) t3
      (by rw [l2]; exact usub_not_lt t3 t2 200 h3 (by omega))
      (by rw [e2', i2']; rfl)
  have e3' : (checkButton (checkButton (checkButton d true t1) true t2)
      true t3).emergencyPresses = [t1, t2, t3, 0, 0] := by rw [e3, e2', i2']; rfl
  have i3' : (checkButton (checkButton (checkButton d true t1) true t2)
      true t3).emergencyPressIndex = 3 := by rw [i3, i2']
  obtain ⟨e4, i4, l4, v4⟩ :=
    checkButton_press_step
      (checkButton (checkButton (checkButton d true t1) true t2) true t3) t4
      (by rw [l3]; exact usub_not_lt t4 t3 200 h4 (by omega))
      (by rw [e3', i3']; rfl)
  have e4' : (checkButton (checkButton (checkButton (checkButton d true t1) true t2)
      true t3) true t4).emergencyPresses = [t1, t2, t3, t4, 0] := by rw [e4, e3', i3']; rfl
  have i4' : (checkButton (checkButton (checkButton (checkButton d true t1) true t2)
      true t3) true t4).emergencyPressIndex = 4 := by rw [i4, i3']
  refine ⟨?_, ?_⟩
  · exact checkButton_press_trigger
      (checkButton (checkButton (checkButton (checkButton d true t1) true t2) true t3)
        true t4) t5
      (by rw [l4]; exact usub_not_lt t5 t4 200 h5 (by omega))
      (by rw [e4', i4']; show (0 : Nat) < t1; omega)
      (by rw [e4', i4']; show usub t5 t1 < 3000; exact usub_lt t5 t1 3000 (by omega) hw (by omega))
  · intro hne
    have n1 : (checkButton d true t1).lastEvent ≠ "emergency_unlock".data := by
      rcases v1 with h | h | h <;> rw [h]
      · exact hne
      · decide
      · decide
    have n2 : (checkButton (checkButton d true t1) true t2).lastEvent ≠
        "emergency_unlock".data := by
      rcases v2 with h | h | h <;> rw [h]
      · exact n1
      · decide
      · decide
    have n3 : (checkButton (checkButton (checkButton d true t1) true t2)
        true t3).lastEvent ≠ "emergency_unlock".data := by
      rcases v3 with h | h | h <;> rw [h]
      · exact n2
      · decide
      · decide
    rcases v4 with h | h | h <;> rw [h]
    · exact n3
    · decide
    · decide

/-- C10 witness: five presses at 200,400,600,800,1000 ms on a locked
device with plenty of time left trigger the emergency unlock; the first
four alone do not. -/
theorem c10_five_press_emergency_witness :
    ((checkButton (checkButton (checkButton (checkButton (checkButton lockedDevice true 200)
        true 400) true 600) true 800) true 1000).currentState = BoxState.unlocking ∧
     (checkButton (checkButton (checkButton (checkButton (checkButton lockedDevice true 200)
        true 400) true 600) true 800) true 1000).lastEvent = "emergency_unlock".data ∧
     (checkButton (checkButton (checkButton (checkButton (checkButton lockedDevice true 200)
        true 400) true 600) true 800) true 1000).servoPos = 0 ∧
     (checkButton (checkButton (checkButton (checkButton (checkButton lockedDevice true 200)
        true 400) true 600) true 800) true 1000).lockEndTime = 0 ∧
     (checkButton (checkButton (checkButton (checkButton (checkButton lockedDevice true 200)
        true 400) true 600) true 800) true 1000).emergencyPresses = [0, 0, 0, 0, 0] ∧
     (checkButton (checkButton (checkButton (checkButton (checkButton lockedDevice true 200)
        true 400) true 600) true 800) true 1000).emergencyPressIndex = 0) ∧
    ((checkButton (checkButton (checkButton (checkButton lockedDevice true 200) true 400)
        true 600) true 800).lastEvent ≠ "emergency_unlock".data) := by
  have h := c10_five_press_emergency lockedDevice 200 400 600 800 1000
    (by decide) (by decide) (by decide) (by decide) (by decide) (by decide) (by decide)
    (by decide) (by decide)
  exact ⟨h.1, h.2 (by decide)⟩

end Keypr

namespace Keypr


/-- C8: calling OTA `start` while the device is `Locked` always ends in
the `Error` state with the device-locked error code, changes nothing else
in the session, and writes no bytes to the inactive storage region. -/
theorem c8_ota_start_while_locked (s : OtaSession) (deviceState : BoxState)
    (batteryPercent minBattery capacity totalSize expectedCrc32 resumeOffset : Nat)
    (h : deviceState = BoxState.locked) :
    (otaStart s deviceState batteryPercent minBattery capacity
        totalSize expectedCrc32 resumeOffset).1.state = OtaState.error ∧
    (otaStart s deviceState batteryPercent minBattery capacity
        totalSize expectedCrc32 resumeOffset).1.errorCode = some OtaErrorCode.deviceLocked ∧
    (otaStart s deviceState batteryPercent minBattery capacity
        totalSize expectedCrc32 resumeOffset).1.totalSize = s.totalSize ∧
    (otaStart s deviceState batteryPercent minBattery capacity
        totalSize expectedCrc32 resumeOffset).1.bytesReceived = s.bytesReceived ∧
    (otaStart s deviceState batteryPercent minBattery capacity
        totalSize expectedCrc32 resumeOffset).1.expectedCrc32 = s.expectedCrc32 ∧
    (otaStart s deviceState batteryPercent minBattery capacity
        totalSize expectedCrc32 resumeOffset).1.runningCrc32 = s.runningCrc32 ∧
    (otaStart s deviceState batteryPercent minBattery capacity
        totalSize expectedCrc32 resumeOffset).2 = [] := by
  unfold otaStart
  rw [if_pos h]
  exact ⟨rfl, rfl, rfl, rfl, rfl, rfl, rfl⟩


/-- C8 witness: a concrete `start` on a locked device. -/
theorem c8_ota_start_while_locked_witness :
    (otaStart idleOta BoxState.locked 100 20 2000000 150000 3735928559 0).1.state =
      OtaState.error ∧
    (otaStart idleOta BoxState.locked 100 20 2000000 150000 3735928559 0).1.errorCode =
      some OtaErrorCode.deviceLocked ∧
    (otaStart idleOta BoxState.locked 100 20 2000000 150000 3735928559 0).2 = [] := by
  have h := c8_ota_start_while_locked idleOta BoxState.locked 100 20 2000000 150000
    3735928559 0 (by decide)
  exact ⟨h.1, h.2.1, h.2.2.2.2.2.2⟩

end Keypr

namespace Keypr


/-- C9: `acknowledge(up_to_seq)` removes exactly the buffered events with
`seq ≤ up_to_seq` and no others — on a `seq`-sorted buffer the removed
part is precisely the oldest-first contiguous prefix — and the durable
critical slots lose exactly the same entries. -/
theorem c9_acknowledge_exact (buf : List BufferedEvent) (upToSeq : Nat)
    (e : BufferedEvent) (slots : List (Option BufferedEvent)) :
    (e ∈ acknowledge buf upToSeq ↔ e ∈ buf ∧ upToSeq < e.seq) ∧
    (List.Pairwise (fun a b => a.seq < b.seq) buf →
      buf = buf.filter (fun x => x.seq ≤ upToSeq) ++ acknowledge buf upToSeq) ∧
    (some e ∈ acknowledgeCritical slots upToSeq ↔ some e ∈ slots ∧ upToSeq < e.seq) := by
  refine ⟨?_, ?_, ?_⟩
  · simp [acknowledge, List.mem_filter]
  · intro hs
    induction buf with
    | nil => simp [acknowledge]
    | cons a l ih =>
      rw [List.pairwise_cons] at hs
      by_cases h : a.seq ≤ upToSeq
      · have hgt : ¬ upToSeq < a.seq := not_lt.mpr h
        have ih2 := ih hs.2
        simp only [acknowledge] at ih2 ⊢
        simp only [List.filter_cons, h, hgt]
        simpa using ih2
      · have hgt : upToSeq < a.seq := not_le.mp h
        have hall : ∀ b ∈ l, upToSeq < b.seq := fun b hb => lt_trans hgt (hs.1 b hb)
        have hle : l.filter (fun x => decide (x.seq ≤ upToSeq)) = [] := by
          rw [List.filter_eq_nil_iff]
          intro b hb
          simpa using not_le.mpr (hall b hb)
        have hkeep : l.filter (fun e => decide (upToSeq < e.seq)) = l := by
          rw [List.filter_eq_self]
          intro b hb
          simpa using hall b hb
        simp [acknowledge, List.filter_cons, h, hgt, hle, hkeep]
  · constructor
    · intro h
      rcases List.mem_map.mp h with ⟨s, hs, hmap⟩
      cases s with
      | none => simp at hmap
      | some x =>
        by_cases hx : x.seq ≤ upToSeq
        · simp [hx] at hmap
        · simp [hx] at hmap
          subst hmap
          exact ⟨hs, not_le.mp hx⟩
    · rintro ⟨hmem, hgt⟩
      refine List.mem_map.mpr ⟨some e, hmem, ?_⟩
      have hne : ¬ e.seq ≤ upToSeq := not_le.mpr hgt
      simp [hne]


/-- C9 witness: acknowledging up to 5 on the sorted buffer [3, 7] keeps
exactly the event with seq 7, splits the buffer as prefix ++ kept, and
clears exactly the seq-3 slot in durable storage. -/
theorem c9_acknowledge_exact_witness :
    (sampleEventB ∈ acknowledge [sampleEventA, sampleEventB] 5 ↔
      sampleEventB ∈ [sampleEventA, sampleEventB] ∧ 5 < sampleEventB.seq) ∧
    ([sampleEventA, sampleEventB] =
      [sampleEventA, sampleEventB].filter (fun x => x.seq ≤ 5) ++
        acknowledge [sampleEventA, sampleEventB] 5) ∧
    (some sampleEventB ∈ acknowledgeCritical [some sampleEventA, some sampleEventB, none] 5 ↔
      some sampleEventB ∈ [some sampleEventA, some sampleEventB, none] ∧
        5 < sampleEventB.seq) := by
  have h := c9_acknowledge_exact [sampleEventA, sampleEventB] 5 sampleEventB
    [some sampleEventA, some sampleEventB, none]
  exact ⟨h.1, h.2.1 (by decide), h.2.2⟩

end Keypr
